import Mathlib

/-!
Verification of the MoneyMax financial calculation engine
(`src/data/financial_utils.py`) against its natural-language specification.

The Python functions are shallowly embedded over `ℚ`: the source computes
with IEEE doubles, but every formula in it is exact rational arithmetic
followed by decimal rounding, so the rational semantics is the intended
(and, away from representation-noise ties, the actual) behaviour.  All
definitions are executable and follow the source line by line; deviations
forced by the embedding are noted in doc comments at the definition they
concern.
-/

/-- Python's `round(x, 2)`: round to 2 decimal places.  Modelled with
`round` (round-half-up); Python uses round-half-even, which differs only
at exact `.xx5` ties — no claim, example or counterexample below sits on
a tie. -/
def round2 (x : ℚ) : ℚ := (round (100 * x) : ℚ) / 100

/-- Python's `round(x, 1)`: round to 1 decimal place (same tie caveat as
`round2`). -/
def round1 (x : ℚ) : ℚ := (round (10 * x) : ℚ) / 10

/-- Result of `validar_parametros_inversion`: the dict
`{'valido': ..., 'errores': ...}`. -/
structure ValidationOutcome where
  valido : Bool
  errores : List String
deriving Repr, DecidableEq

/-- Amount ceiling chosen in `validar_parametros_inversion`
(lines 33–39): `50_000_000` for `tipo_inversion == 'simple'`, else
`1_000_000`.  The floor is `100` in both branches. -/
def montoMax (tipo_inversion : String) : ℚ :=
  if tipo_inversion = "simple" then 50000000 else 1000000

/-- The f-string `f"El monto debe estar entre ${MONTO_MIN:,} y
${MONTO_MAX:,} MXN"` rendered for each branch's constants. -/
def mensajeMonto (tipo_inversion : String) : String :=
  if tipo_inversion = "simple" then
    "El monto debe estar entre $100 y $50,000,000 MXN"
  else
    "El monto debe estar entre $100 y $1,000,000 MXN"

/-- The `errores` list accumulated by `validar_parametros_inversion` for
numeric inputs (the `float`/`int` parse-failure early returns cannot fire
for inputs already typed `ℚ`/`ℤ`, so they are outside this embedding;
every claim below supplies numeric inputs). -/
def erroresValidacion (monto : ℚ) (plazo_dias : ℤ) (tipo_inversion : String) :
    List String :=
  (if 100 ≤ monto ∧ monto ≤ montoMax tipo_inversion then []
   else [mensajeMonto tipo_inversion]) ++
  (if 1 ≤ plazo_dias ∧ plazo_dias ≤ 3650 then []
   else ["El plazo debe estar entre 1 y 3650 días"])

/-- `validar_parametros_inversion(monto, plazo_dias, producto_id,
tipo_inversion)` (lines 22–54).  Note that the source never reads
`producto_id`; the parameter is kept to mirror the signature. -/
def validar_parametros_inversion (monto : ℚ) (plazo_dias : ℤ)
    (producto_id tipo_inversion : String) : ValidationOutcome :=
  { valido := (erroresValidacion monto plazo_dias tipo_inversion).isEmpty
    errores := erroresValidacion monto plazo_dias tipo_inversion }

/-- Result dict of `calcular_inversion_simple`. -/
structure SimpleResult where
  tipo_inversion : String
  monto_inicial : ℚ
  rendimiento : ℚ
  monto_final : ℚ
  tasa_efectiva : ℚ
  plazo_meses : ℚ
  tasa_anual : ℚ
  plazo_dias : ℤ
deriving Repr, DecidableEq

/-- `calcular_inversion_simple(monto_inicial, tasa_anual, plazo_dias)`
(lines 56–101).  Every division in the body is by a nonzero constant
(`100`, `365`, `30.44`), so the source's `try/except` can only be entered
through the numeric coercions, which cannot fail for inputs already typed
`ℚ`/`ℤ`; the function is therefore embedded as total. -/
def calcular_inversion_simple (monto_inicial tasa_anual : ℚ)
    (plazo_dias : ℤ) : SimpleResult :=
  let tasa_decimal := tasa_anual / 100
  let tiempo_anos := (plazo_dias : ℚ) / 365
  let rendimiento := monto_inicial * tasa_decimal * tiempo_anos
  let monto_final := monto_inicial + rendimiento
  let tasa_efectiva := tasa_anual
  let plazo_meses := round1 ((plazo_dias : ℚ) / (30.44 : ℚ))
  { tipo_inversion := "simple"
    monto_inicial := round2 monto_inicial
    rendimiento := round2 rendimiento
    monto_final := round2 monto_final
    tasa_efectiva := round2 tasa_efectiva
    plazo_meses := plazo_meses
    tasa_anual := tasa_anual
    plazo_dias := plazo_dias }

/-- `tasa_mensual = (tasa_anual / 100) / 12` (line 123). -/
def tasa_mensual (tasa_anual : ℚ) : ℚ := (tasa_anual / 100) / 12

/-- Result dict of `calcular_inversion_mensual`.  `tasa_efectiva` is
`Option ℚ`: `none` marks the `plazo_meses ≥ 12` fallback estimate, whose
real-number exponent `(monto_final/total_aportado)^(1/anos)` lies outside
the rational embedding; no claim refers to that value. -/
structure MensualResult where
  tipo_inversion : String
  monto_mensual : ℚ
  total_aportado : ℚ
  rendimiento_total : ℚ
  monto_final : ℚ
  tasa_efectiva : Option ℚ
  plazo_meses : ℕ
  tasa_anual : ℚ
deriving Repr, DecidableEq

/-- `calcular_inversion_mensual(monto_mensual, tasa_anual, plazo_meses)`
(lines 103–169).

The `tir_anual` parameter is the outcome of `calcular_tir_anualidad`
(lines 264–287): a scipy Newton iteration over the cash-flow series.  That
root-finder is an external numerical dependency — the source catches every
failure (scipy missing, non-convergence, empty flow list) and falls back to
`None` — so it enters the embedding as a parameter rather than a
definition; none of the monetary fields depend on it.

The `Except.error` case models the one uncaught-by-branch fault of the
body: with `tir_anual = None` the fallback computes
`rendimiento_total / total_aportado`, which raises `ZeroDivisionError`
(re-raised as `ValueError` by lines 168–169) when `total_aportado == 0`.
Every other division is guarded (`if tasa_mensual > 0`) or by a constant. -/
def calcular_inversion_mensual (tir_anual : Option ℚ)
    (monto_mensual tasa_anual : ℚ) (plazo_meses : ℕ) :
    Except String MensualResult :=
  let tasa := tasa_mensual tasa_anual
  let monto_final : ℚ :=
    if 0 < tasa then
      monto_mensual * (((1 + tasa) ^ plazo_meses - 1) / tasa) * (1 + tasa)
    else
      monto_mensual * plazo_meses
  let total_aportado : ℚ := monto_mensual * plazo_meses
  let rendimiento_total := monto_final - total_aportado
  match tir_anual with
  | some t =>
      Except.ok
        { tipo_inversion := "mensual"
          monto_mensual := round2 monto_mensual
          total_aportado := round2 total_aportado
          rendimiento_total := round2 rendimiento_total
          monto_final := round2 monto_final
          tasa_efectiva := some (round2 t)
          plazo_meses := plazo_meses
          tasa_anual := tasa_anual }
  | none =>
      if total_aportado = 0 then
        Except.error "Error en cálculo de inversión mensual: float division by zero"
      else
        let rendimiento_porcentual := rendimiento_total / total_aportado * 100
        Except.ok
          { tipo_inversion := "mensual"
            monto_mensual := round2 monto_mensual
            total_aportado := round2 total_aportado
            rendimiento_total := round2 rendimiento_total
            monto_final := round2 monto_final
            tasa_efectiva :=
              if plazo_meses < 12 then
                some (round2 (rendimiento_porcentual * (12 / (plazo_meses : ℚ))))
              else
                none
            plazo_meses := plazo_meses
            tasa_anual := tasa_anual }

/-- One row of the growth table built by
`generar_tabla_crecimiento_mensual` (lines 212–219). -/
structure FilaCrecimiento where
  mes : ℕ
  aportacion : ℚ
  total_aportado : ℚ
  rendimiento_mes : ℚ
  rendimiento_acumulado : ℚ
  monto_total : ℚ
deriving Repr, DecidableEq

/-- The row appended for month `mes` when the balance carried in from the
previous months is `saldo_anterior` (loop body, lines 201–219). -/
def filaDe (monto_mensual tasa saldo_anterior : ℚ) (mes : ℕ) : FilaCrecimiento :=
  let intereses_mes := saldo_anterior * tasa
  let saldo_actual := saldo_anterior + intereses_mes + monto_mensual
  { mes := mes
    aportacion := monto_mensual
    total_aportado := round2 (monto_mensual * mes)
    rendimiento_mes := round2 intereses_mes
    rendimiento_acumulado := round2 (saldo_actual - monto_mensual * mes)
    monto_total := round2 saldo_actual }

/-- The `for mes in range(1, plazo_meses + 1)` loop of
`generar_tabla_crecimiento_mensual`, with the remaining iteration count
made explicit: `saldo_anterior` and `mes` are the loop-carried state. -/
def tablaLoop (monto_mensual tasa : ℚ) : ℕ → ℚ → ℕ → List FilaCrecimiento
  | 0, _, _ => []
  | m + 1, saldo_anterior, mes =>
      filaDe monto_mensual tasa saldo_anterior mes ::
        tablaLoop monto_mensual tasa m
          (saldo_anterior + saldo_anterior * tasa + monto_mensual) (mes + 1)

/-- `generar_tabla_crecimiento_mensual(monto_mensual, tasa_anual,
plazo_meses)` (lines 178–228).  The `except` branch (returning an empty
table) is unreachable for numeric inputs: the loop body raises nothing. -/
def generar_tabla_crecimiento_mensual (monto_mensual tasa_anual : ℚ)
    (plazo_meses : ℕ) : List FilaCrecimiento :=
  tablaLoop monto_mensual (tasa_mensual tasa_anual) plazo_meses 0 1

/-- One step of the balance recurrence actually implemented by the loop:
interest accrues on the carried balance, then the contribution is added. -/
def pasoSaldo (monto_mensual tasa s : ℚ) : ℚ := s + s * tasa + monto_mensual

/-- The carried balance after iterating `pasoSaldo` from `s`. -/
def iterSaldo (monto_mensual tasa s : ℚ) : ℕ → ℚ
  | 0 => s
  | k + 1 => pasoSaldo monto_mensual tasa (iterSaldo monto_mensual tasa s k)

/-- `saldo_anterior` entering month `k + 1` of the table (equivalently the
balance after `k` completed months), starting from `saldo_anterior = 0`. -/
def saldoMes (monto_mensual tasa_anual : ℚ) (k : ℕ) : ℚ :=
  iterSaldo monto_mensual (tasa_mensual tasa_anual) 0 k

/-- Modelled from the spec: the per-period recurrence §4.4 claims
(contribution credited *before* interest accrues that period):
`balance_p = balance_{p-1} + c` followed by
`balance_p += balance_p * monthlyRate`. -/
def saldoSpecDue (c r : ℚ) : ℕ → ℚ
  | 0 => 0
  | k + 1 =>
      (saldoSpecDue c r k + c) + (saldoSpecDue c r k + c) * tasa_mensual r

/-- Digit value of a character, used by `parseEntero`. -/
def digitVal (c : Char) : Option ℕ :=
  if '0' ≤ c ∧ c ≤ '9' then some (c.toNat - '0'.toNat) else none

/-- Accumulator loop of `parseEntero`. -/
def parseDigitsAux : List Char → ℕ → Option ℕ
  | [], acc => some acc
  | c :: cs, acc =>
      match digitVal c with
      | some d => parseDigitsAux cs (acc * 10 + d)
      | none => none

/-- Model of Python's `int(...)` applied to a JSON term key (line 243):
an optional sign followed by decimal digits; anything else fails.  Python's
`int` additionally tolerates surrounding whitespace and underscore
separators, but the catalog keys this code consumes are plain digit
strings, on which the two agree. -/
def parseEntero (s : String) : Option ℤ :=
  match s.data with
  | [] => none
  | '-' :: [] => none
  | '-' :: c :: cs => (parseDigitsAux (c :: cs) 0).map (fun n => -(n : ℤ))
  | c :: cs => (parseDigitsAux (c :: cs) 0).map (fun n => (n : ℤ))

/-- A term entry of a catalog product: `{'tasa_anual': ..., 'nombre': ...}`. -/
structure PlazoInfo where
  tasa_anual : ℚ
  nombre : String
deriving Repr, DecidableEq

/-- A catalog product: `{'nombre': ..., 'plazos': {...}}`.  The `plazos`
dict is a list of (key, entry) pairs in insertion order, as Python dicts
iterate. -/
structure Producto where
  nombre : String
  plazos : List (String × PlazoInfo)
deriving Repr, DecidableEq

/-- One row appended by `calcular_comparacion_productos` (lines 246–255). -/
structure ComparacionRow where
  producto_id : String
  producto_nombre : String
  plazo_dias : ℤ
  plazo_nombre : String
  tasa_anual : ℚ
  rendimiento : ℚ
  monto_final : ℚ
  tasa_efectiva : ℚ
deriving Repr, DecidableEq

/-- The `comparaciones` list before sorting (loop of lines 237–258), in
catalog iteration order.  A (product, term) pair whose key fails
`int(plazo_dias)` raises and is skipped by the `except: continue`;
`calcular_inversion_simple` itself cannot raise on numeric inputs. -/
def comparacionRows (monto : ℚ) (productos : List (String × Producto)) :
    List ComparacionRow :=
  productos.flatMap (fun pp =>
    pp.2.plazos.filterMap (fun pl =>
      (parseEntero pl.1).map (fun plazo_dias =>
        let resultado := calcular_inversion_simple monto pl.2.tasa_anual plazo_dias
        { producto_id := pp.1
          producto_nombre := pp.2.nombre
          plazo_dias := plazo_dias
          plazo_nombre := pl.2.nombre
          tasa_anual := pl.2.tasa_anual
          rendimiento := resultado.rendimiento
          monto_final := resultado.monto_final
          tasa_efectiva := resultado.tasa_efectiva })))

/-- The sort order of `sorted(comparaciones, key=lambda x:
x['rendimiento'], reverse=True)`: descending `rendimiento`. -/
def ordenRendimiento (a b : ComparacionRow) : Prop :=
  b.rendimiento ≤ a.rendimiento

instance : DecidableRel ordenRendimiento :=
  fun a b => inferInstanceAs (Decidable (b.rendimiento ≤ a.rendimiento))

instance : IsTotal ComparacionRow ordenRendimiento :=
  ⟨fun a b => le_total b.rendimiento a.rendimiento⟩

instance : IsTrans ComparacionRow ordenRendimiento :=
  ⟨fun _ _ _ hab hbc => le_trans hbc hab⟩

/-- `calcular_comparacion_productos(monto, productos)` (lines 230–260).
Python's `sorted` is specified as a *stable* sort; a stable descending
sort has a uniquely determined output, so any stable implementation is a
faithful model — we use `List.insertionSort`, which is stable for this
non-strict relation. -/
def calcular_comparacion_productos (monto : ℚ)
    (productos : List (String × Producto)) : List ComparacionRow :=
  (comparacionRows monto productos).insertionSort ordenRendimiento

/-- Two-product catalog with differing rates at the same term, realizing
the claim's example. -/
def productosEjemplo : List (String × Producto) :=
  [("A", { nombre := "Producto A"
           plazos := [("365", { tasa_anual := 10, nombre := "1 año" })] }),
   ("B", { nombre := "Producto B"
           plazos := [("365", { tasa_anual := 12, nombre := "1 año" })] })]

/-- C5: `computeSingle` returns `totalReturn = principal *
(annualRatePercent/100) * (termDays/365)` and `finalAmount = principal +
totalReturn`, each rounded to 2 decimals; in particular
`computeSingle(10000, 12, 365)` returns `totalReturn = 1200.00` and
`finalAmount = 11200.00`. -/
theorem C5_simple_interest_formula :
    (∀ (monto_inicial tasa_anual : ℚ) (plazo_dias : ℤ),
      (calcular_inversion_simple monto_inicial tasa_anual plazo_dias).rendimiento
          = round2 (monto_inicial * (tasa_anual / 100) * ((plazo_dias : ℚ) / 365)) ∧
      (calcular_inversion_simple monto_inicial tasa_anual plazo_dias).monto_final
          = round2 (monto_inicial
              + monto_inicial * (tasa_anual / 100) * ((plazo_dias : ℚ) / 365))) ∧
    (calcular_inversion_simple 10000 12 365).rendimiento = 1200 ∧
    (calcular_inversion_simple 10000 12 365).monto_final = 11200 :=
  ⟨fun _ _ _ => ⟨rfl, rfl⟩,
   by norm_num [calcular_inversion_simple, round2, round_eq],
   by norm_num [calcular_inversion_simple, round2, round_eq]⟩

/-- C6 (amended): `computeSingle(p, r, 0)` cannot fault (no division by a
variable quantity occurs) and returns `totalReturn = 0`,
`finalAmount = round2 p` and `effectiveAnnualRatePercent = round2 r` —
the last two equal `p` and `r` exactly whenever those inputs already have
at most two decimal places. -/
theorem C6_zero_term_degenerate (monto_inicial tasa_anual : ℚ) :
    (calcular_inversion_simple monto_inicial tasa_anual 0).rendimiento = 0 ∧
    (calcular_inversion_simple monto_inicial tasa_anual 0).monto_final
        = round2 monto_inicial ∧
    (calcular_inversion_simple monto_inicial tasa_anual 0).tasa_efectiva
        = round2 tasa_anual := by
  refine ⟨?_, ?_, rfl⟩
  · show round2 (monto_inicial * (tasa_anual / 100) * (((0 : ℤ) : ℚ) / 365)) = 0
    have h : monto_inicial * (tasa_anual / 100) * (((0 : ℤ) : ℚ) / 365) = 0 := by
      push_cast
      ring
    rw [h]
    norm_num [round2, round_eq]
  · show round2 (monto_inicial
        + monto_inicial * (tasa_anual / 100) * (((0 : ℤ) : ℚ) / 365))
      = round2 monto_inicial
    have h : monto_inicial + monto_inicial * (tasa_anual / 100) * (((0 : ℤ) : ℚ) / 365)
        = monto_inicial := by
      push_cast
      ring
    rw [h]

/-- C6 counterexample: the claim promises `finalAmount = p` for *every*
principal, but the source rounds the returned amount to 2 decimals:
at `p = 100.006` it returns `100.01 ≠ 100.006`. -/
theorem C6_counterexample :
    (calcular_inversion_simple 100.006 12 0).monto_final = 100.01 ∧
    (100.01 : ℚ) ≠ 100.006 := by
  constructor
  · norm_num [calcular_inversion_simple, round2, round_eq]
  · norm_num

/-- C4 counterexample: the claim promises `isValid = false` with a
missing-product-id violation, but the validator accepts a request with an
empty `producto_id` and in-bounds amount and term. -/
theorem C4_counterexample :
    validar_parametros_inversion 1000 365 "" "simple"
      = ⟨true, []⟩ := by
  have h1 : (100 : ℚ) ≤ 1000 ∧ (1000 : ℚ) ≤ montoMax "simple" := by
    constructor <;> norm_num [montoMax]
  have h2 : (1 : ℤ) ≤ 365 ∧ (365 : ℤ) ≤ 3650 := by omega
  simp [validar_parametros_inversion, erroresValidacion, h1, h2]

/-- C4 (amended): `validar_parametros_inversion` never reads
`producto_id` — its outcome is identical for any two product ids — and a
request with an empty `producto_id` and in-bounds amount and term is
accepted with no violations (product existence is checked by the caller
in `app.py`, not by the validator). -/
theorem C4_validator_ignores_producto_id (monto : ℚ) (plazo_dias : ℤ)
    (id1 id2 tipo : String) :
    validar_parametros_inversion monto plazo_dias id1 tipo
        = validar_parametros_inversion monto plazo_dias id2 tipo ∧
    (100 ≤ monto → monto ≤ 1000000 → 1 ≤ plazo_dias → plazo_dias ≤ 3650 →
      validar_parametros_inversion monto plazo_dias "" tipo = ⟨true, []⟩) := by
  constructor
  · rfl
  · intro h1 h2 h3 h4
    have hm : 100 ≤ monto ∧ monto ≤ montoMax tipo := by
      refine ⟨h1, ?_⟩
      unfold montoMax
      split
      · exact h2.trans (by norm_num)
      · exact h2
    have hp : 1 ≤ plazo_dias ∧ plazo_dias ≤ 3650 := ⟨h3, h4⟩
    simp [validar_parametros_inversion, erroresValidacion, hm, hp]

/-- C4 witness: the amended theorem applied at a concrete in-bounds
request. -/
theorem C4_witness :
    validar_parametros_inversion 1500 365 "" "mensual" = ⟨true, []⟩ :=
  (C4_validator_ignores_producto_id 1500 365 "x" "y" "mensual").2
    (by norm_num) (by norm_num) (by norm_num) (by norm_num)

/-- C10: for every `tipo_inversion` other than the tag `"simple"` —
including unrecognized strings — the validator behaves exactly as for the
recurring tag `"mensual"`, and it accepts the request precisely when the
amount lies in the recurring bounds `[100, 1000000]` and the term lies in
`[1, 3650]`; in particular no request is ever rejected merely for
carrying an unknown kind. -/
theorem C10_unknown_kinds_get_recurring_bounds (monto : ℚ) (plazo_dias : ℤ)
    (producto_id tipo : String) (h : tipo ≠ "simple") :
    validar_parametros_inversion monto plazo_dias producto_id tipo
        = validar_parametros_inversion monto plazo_dias producto_id "mensual" ∧
    ((validar_parametros_inversion monto plazo_dias producto_id tipo).valido = true
        ↔ (100 ≤ monto ∧ monto ≤ 1000000) ∧ (1 ≤ plazo_dias ∧ plazo_dias ≤ 3650)) := by
  have hmax : montoMax tipo = 1000000 := if_neg h
  have hmsg : mensajeMonto tipo = mensajeMonto "mensual" := by
    unfold mensajeMonto
    rw [if_neg h, if_neg (by decide : ("mensual" : String) ≠ "simple")]
  have herr : erroresValidacion monto plazo_dias tipo
      = erroresValidacion monto plazo_dias "mensual" := by
    unfold erroresValidacion
    rw [hmax, hmsg]
    rw [show montoMax "mensual" = 1000000 from
      if_neg (by decide : ("mensual" : String) ≠ "simple")]
  constructor
  · unfold validar_parametros_inversion
    rw [herr]
  · unfold validar_parametros_inversion erroresValidacion
    rw [hmax]
    by_cases hA : (100 : ℚ) ≤ monto ∧ monto ≤ 1000000 <;>
      by_cases hB : (1 : ℤ) ≤ plazo_dias ∧ plazo_dias ≤ 3650 <;>
      simp [hA, hB]

/-- C10 witness: the theorem applied at a concrete unknown kind. -/
theorem C10_witness :
    validar_parametros_inversion 1000 365 "cetes" "fondo"
        = validar_parametros_inversion 1000 365 "cetes" "mensual" ∧
    ((validar_parametros_inversion 1000 365 "cetes" "fondo").valido = true
        ↔ ((100 : ℚ) ≤ 1000 ∧ (1000 : ℚ) ≤ 1000000)
            ∧ ((1 : ℤ) ≤ 365 ∧ (365 : ℤ) ≤ 3650)) :=
  C10_unknown_kinds_get_recurring_bounds 1000 365 "cetes" "fondo" (by decide)

/-- C1 evaluation at the failing input: the code returns the annuity-due
amount `12809.33` at `(1000, 12, 12)` — the ordinary-annuity formula the
claim (and the function's own docstring) state rounds to `12682.50`. -/
theorem C1_annuity_due_not_ordinary :
    (calcular_inversion_mensual none 1000 12 12).map (fun r => r.monto_final)
        = Except.ok 12809.33 ∧
    round2 (1000 * (((1 + tasa_mensual 12) ^ 12 - 1) / tasa_mensual 12))
        = 12682.50 ∧
    (12809.33 : ℚ) ≠ 12682.50 := by
  refine ⟨?_, ?_, by norm_num⟩
  · norm_num [calcular_inversion_mensual, tasa_mensual, round2, round_eq,
      Except.map]
  · norm_num [tasa_mensual, round2, round_eq]

/-- Helper: rounding zero gives zero. -/
theorem round2_zero : round2 0 = 0 := by
  norm_num [round2]

/-- C7 (amended): for every nonzero contribution `c` and `n > 0`,
`computeRecurring(c, 0, n)` takes the zero-rate branch (so the division by
`monthlyRate` is never executed), succeeds whatever the IRR solver did,
and returns `finalAmount = round2 (c*n)` — equal to `c*n` exactly whenever
`c*n` has at most two decimal places — and `totalReturn = 0`.  (At `c = 0`
the branch still yields `c*n = 0`, but if the IRR dependency is
unavailable the effective-rate fallback divides by
`totalContributed = 0` and the call raises, so `c ≠ 0` is required for
the no-fault guarantee.) -/
theorem C7_zero_rate_branch (tir : Option ℚ) (c : ℚ) (n : ℕ)
    (hc : c ≠ 0) (hn : 0 < n) :
    ∃ res, calcular_inversion_mensual tir c 0 n = Except.ok res ∧
      res.monto_final = round2 (c * n) ∧
      res.rendimiento_total = 0 ∧
      res.total_aportado = round2 (c * n) := by
  have htasa : ¬ (0 : ℚ) < tasa_mensual 0 := by norm_num [tasa_mensual]
  have htot : c * (n : ℚ) ≠ 0 :=
    mul_ne_zero hc (Nat.cast_ne_zero.mpr hn.ne')
  cases tir with
  | some t =>
      refine ⟨_, rfl, ?_, ?_, ?_⟩ <;>
        simp [calcular_inversion_mensual, htasa, round2_zero]
  | none =>
      have h : calcular_inversion_mensual none c 0 n
          = Except.ok
              { tipo_inversion := "mensual"
                monto_mensual := round2 c
                total_aportado := round2 (c * n)
                rendimiento_total := round2 (c * n - c * n)
                monto_final := round2 (c * n)
                tasa_efectiva :=
                  if n < 12 then
                    some (round2 ((c * n - c * n) / (c * n) * 100 * (12 / (n : ℚ))))
                  else
                    none
                plazo_meses := n
                tasa_anual := 0 } := by
        simp only [calcular_inversion_mensual]
        rw [if_neg htasa, if_neg htot]
      exact ⟨_, h, rfl, by simp [sub_self, round2_zero], rfl⟩

/-- C7 witness: the amended theorem applied at `tir = none`, `c = 5`,
`n = 3`. -/
theorem C7_witness :
    ∃ res, calcular_inversion_mensual none 5 0 3 = Except.ok res ∧
      res.monto_final = round2 (5 * (3 : ℕ)) ∧
      res.rendimiento_total = 0 ∧
      res.total_aportado = round2 (5 * (3 : ℕ)) :=
  C7_zero_rate_branch none 5 3 (by norm_num) (by norm_num)

/-- C7 counterexample: the claim promises `finalAmount = c * n` *exactly*
for every contribution, but the source rounds the returned amount to
2 decimals: at `c = 100.003`, `n = 1` it returns `100.00 ≠ 100.003`. -/
theorem C7_counterexample :
    (calcular_inversion_mensual none 100.003 0 1).map (fun r => r.monto_final)
        = Except.ok 100 ∧
    (100 : ℚ) ≠ 100.003 * 1 := by
  constructor
  · norm_num [calcular_inversion_mensual, tasa_mensual, round2, round_eq,
      Except.map]
  · norm_num

theorem iterSaldo_succ_left (c t s : ℚ) (k : ℕ) :
    iterSaldo c t s (k + 1) = iterSaldo c t (pasoSaldo c t s) k := by
  induction k with
  | zero => rfl
  | succ k ih =>
      rw [show k + 1 + 1 = (k + 1) + 1 from rfl]
      rw [iterSaldo, ih, iterSaldo]

/-- The loop unrolled: row `k` (0-based) of `tablaLoop c t m s p` is the
row for month `p + k` with carried balance `iterSaldo c t s k`. -/
theorem tablaLoop_eq (c t : ℚ) :
    ∀ (m : ℕ) (s : ℚ) (p : ℕ),
      tablaLoop c t m s p
        = (List.range m).map (fun k => filaDe c t (iterSaldo c t s k) (p + k)) := by
  intro m
  induction m with
  | zero => intro s p; rfl
  | succ m ih =>
      intro s p
      rw [tablaLoop, ih, List.range_succ_eq_map, List.map_cons, List.map_map]
      congr 1
      refine List.map_congr_left (fun k _ => ?_)
      have h1 : pasoSaldo c t (iterSaldo c t s k) = iterSaldo c t (s + s * t + c) k :=
        iterSaldo_succ_left c t s k
      rw [← h1]
      congr 1
      omega

/-- The table as a closed map: row `k` (0-based) is the row for month
`1 + k` with carried balance `saldoMes c r k`. -/
theorem tabla_eq (c r : ℚ) (n : ℕ) :
    generar_tabla_crecimiento_mensual c r n
      = (List.range n).map
          (fun k => filaDe c (tasa_mensual r) (saldoMes c r k) (1 + k)) := by
  unfold generar_tabla_crecimiento_mensual saldoMes
  exact tablaLoop_eq c (tasa_mensual r) n 0 1

/-- Closed form of the implemented balance recurrence: the loop realizes
the *ordinary* annuity accumulation `c * ((1+t)^k - 1) / t`. -/
theorem saldoMes_closed (c r : ℚ) (hr : tasa_mensual r ≠ 0) (k : ℕ) :
    saldoMes c r k = c * ((1 + tasa_mensual r) ^ k - 1) / tasa_mensual r := by
  induction k with
  | zero => simp [saldoMes, iterSaldo]
  | succ k ih =>
      have hstep : saldoMes c r (k + 1)
          = saldoMes c r k + saldoMes c r k * tasa_mensual r + c := rfl
      rw [hstep, ih]
      field_simp
      ring

/-- The final row's balance is the rounded balance after `n` months. -/
theorem tabla_getLast (c r : ℚ) (n : ℕ) (hn : 0 < n) :
    (generar_tabla_crecimiento_mensual c r n).getLast?.map
        (fun f => f.monto_total)
      = some (round2 (saldoMes c r n)) := by
  obtain ⟨m, rfl⟩ : ∃ m, n = m + 1 := ⟨n - 1, by omega⟩
  rw [tabla_eq, List.range_succ, List.map_append]
  simp only [List.map_cons, List.map_nil, List.getLast?_concat, Option.map_some]
  rfl

/-- C2 (amended): in each period the schedule accrues interest on the
*previous* balance and only then credits the contribution —
`interestThisPeriod = balance_{p-1} * monthlyRate`;
`balance_p = balance_{p-1} + interestThisPeriod + monthlyContribution` —
so a contribution made in period `p` first earns interest in period
`p + 1`. -/
theorem C2_schedule_recurrence (c r : ℚ) (n : ℕ) :
    ((generar_tabla_crecimiento_mensual c r n).map (fun f => f.rendimiento_mes)
        = (List.range n).map
            (fun k => round2 (saldoMes c r k * tasa_mensual r))) ∧
    ((generar_tabla_crecimiento_mensual c r n).map (fun f => f.monto_total)
        = (List.range n).map (fun k => round2 (saldoMes c r (k + 1)))) ∧
    (∀ k, saldoMes c r (k + 1)
        = saldoMes c r k + saldoMes c r k * tasa_mensual r + c) := by
  refine ⟨?_, ?_, fun k => rfl⟩ <;>
  · rw [tabla_eq, List.map_map]
    exact List.map_congr_left (fun k _ => rfl)

/-- C2 counterexample: at `(1000, 12, 1)` the schedule's first row holds
balance `1000.00` (no interest on the first contribution), while the
claimed recurrence yields `1010.00`. -/
theorem C2_counterexample :
    ((generar_tabla_crecimiento_mensual 1000 12 1).map (fun f => f.monto_total))
        = [1000] ∧
    round2 (saldoSpecDue 1000 12 1) = 1010 ∧
    (1000 : ℚ) ≠ 1010 := by
  refine ⟨?_, ?_, by norm_num⟩
  · norm_num [generar_tabla_crecimiento_mensual, tablaLoop, filaDe,
      tasa_mensual, round2, round_eq]
  · norm_num [saldoSpecDue, tasa_mensual, round2, round_eq]

/-- C8 (amended): the schedule has exactly `numMonths` rows, whose `mes`
fields are `1, 2, ..., numMonths` (strictly increasing from 1), and whose
`total_aportado` at row `k` is `round2 (contribution * k)` — equal to
`contribution * k` exactly whenever that product has at most two decimal
places. -/
theorem C8_schedule_shape (c r : ℚ) (n : ℕ) :
    (generar_tabla_crecimiento_mensual c r n).length = n ∧
    ((generar_tabla_crecimiento_mensual c r n).map (fun f => f.mes)
        = (List.range n).map (fun k => k + 1)) ∧
    ((generar_tabla_crecimiento_mensual c r n).map (fun f => f.total_aportado)
        = (List.range n).map (fun k : ℕ => round2 (c * ((k : ℚ) + 1)))) := by
  refine ⟨?_, ?_, ?_⟩
  · rw [tabla_eq, List.length_map, List.length_range]
  · rw [tabla_eq, List.map_map]
    refine List.map_congr_left (fun k _ => ?_)
    show 1 + k = k + 1
    omega
  · rw [tabla_eq, List.map_map]
    refine List.map_congr_left (fun k _ => ?_)
    show round2 (c * ((1 + k : ℕ) : ℚ)) = round2 (c * ((k : ℚ) + 1))
    congr 1
    push_cast
    ring

/-- C8 counterexample: `cumulativeContributed` is *rounded*: at
`c = 100.003`, `n = 1` the first row stores `100.00 ≠ 100.003 * 1`. -/
theorem C8_counterexample :
    (generar_tabla_crecimiento_mensual 100.003 0 1).map
        (fun f => f.total_aportado) = [100] ∧
    (100 : ℚ) ≠ 100.003 * 1 := by
  refine ⟨?_, by norm_num⟩
  norm_num [generar_tabla_crecimiento_mensual, tablaLoop, filaDe,
    tasa_mensual, round2, round_eq]

/-- C3 evaluation at the failing input: at `(1000, 12, 12)` the closed
form returns `12809.33` (annuity-due) while the schedule's final balance
is `12682.50` (ordinary annuity); they differ by `126.83`, far beyond the
`0.01` tolerance the claim asserts. -/
theorem C3_closed_form_vs_schedule :
    (calcular_inversion_mensual none 1000 12 12).map (fun r => r.monto_final)
        = Except.ok 12809.33 ∧
    (generar_tabla_crecimiento_mensual 1000 12 12).getLast?.map
        (fun f => f.monto_total) = some 12682.50 ∧
    ¬ (|(12809.33 : ℚ) - 12682.50| ≤ 0.01) := by
  refine ⟨?_, ?_, ?_⟩
  · norm_num [calcular_inversion_mensual, tasa_mensual, round2, round_eq,
      Except.map]
  · rw [tabla_getLast 1000 12 12 (by norm_num)]
    rw [saldoMes_closed 1000 12 (by norm_num [tasa_mensual]) 12]
    norm_num [tasa_mensual, round2, round_eq]
  · have habs : |(12809.33 : ℚ) - 12682.50| = 126.83 := by
      rw [show (12809.33 : ℚ) - 12682.50 = 126.83 by norm_num]
      exact abs_of_pos (by norm_num)
    rw [habs]
    norm_num

/-- Ordered insertion never reorders rows of any fixed `rendimiento`
value `q`: the insert lands before every row it ties with. -/
theorem filter_orderedInsert (q : ℚ) (a : ComparacionRow) :
    ∀ l : List ComparacionRow,
      (l.orderedInsert ordenRendimiento a).filter
          (fun x => decide (x.rendimiento = q))
        = if a.rendimiento = q
          then a :: l.filter (fun x => decide (x.rendimiento = q))
          else l.filter (fun x => decide (x.rendimiento = q))
  | [] => by
      by_cases hq : a.rendimiento = q <;> simp [List.orderedInsert, hq]
  | b :: l => by
      rw [List.orderedInsert]
      by_cases hab : ordenRendimiento a b
      · rw [if_pos hab]
        by_cases hq : a.rendimiento = q <;> simp [List.filter_cons, hq]
      · rw [if_neg hab]
        by_cases hq : a.rendimiento = q
        · have hbq : ¬ b.rendimiento = q := fun hb =>
            hab (le_of_eq (hb.trans hq.symm))
          simp [List.filter_cons, hbq, hq, filter_orderedInsert q a l]
        · simp [List.filter_cons, filter_orderedInsert q a l, hq]

/-- Stability of the modelled sort, phrased through filters: the rows of
each fixed `rendimiento` value appear in the output exactly in their
input order. -/
theorem filter_insertionSort (q : ℚ) :
    ∀ l : List ComparacionRow,
      (l.insertionSort ordenRendimiento).filter
          (fun x => decide (x.rendimiento = q))
        = l.filter (fun x => decide (x.rendimiento = q))
  | [] => rfl
  | a :: l => by
      rw [List.insertionSort, filter_orderedInsert, filter_insertionSort q l]
      by_cases hq : a.rendimiento = q <;> simp [List.filter_cons, hq]

/-- C9: `rankByReturn` returns the computed rows sorted by `rendimiento`
in descending order, as a permutation of the per-(product, term) rows in
catalog iteration order, with rows of equal `rendimiento` kept in their
input order (stability); in particular, for two products with differing
rates at the same term, the higher-rate product's row comes first. -/
theorem C9_rank_by_return :
    (∀ (monto : ℚ) (productos : List (String × Producto)),
      List.Sorted ordenRendimiento (calcular_comparacion_productos monto productos) ∧
      (calcular_comparacion_productos monto productos).Perm
          (comparacionRows monto productos) ∧
      (∀ q : ℚ,
        (calcular_comparacion_productos monto productos).filter
            (fun x => decide (x.rendimiento = q))
          = (comparacionRows monto productos).filter
              (fun x => decide (x.rendimiento = q)))) ∧
    (calcular_comparacion_productos 10000 productosEjemplo).map
        (fun x => (x.producto_id, x.rendimiento)) = [("B", 1200), ("A", 1000)] := by
  constructor
  · intro monto productos
    exact ⟨List.sorted_insertionSort ordenRendimiento _,
           List.perm_insertionSort ordenRendimiento _,
           fun q => filter_insertionSort q _⟩
  · have hA : (calcular_inversion_simple 10000 10 365).rendimiento = 1000 := by
      norm_num [calcular_inversion_simple, round2, round_eq]
    have hB : (calcular_inversion_simple 10000 12 365).rendimiento = 1200 := by
      norm_num [calcular_inversion_simple, round2, round_eq]
    have hrows : comparacionRows 10000 productosEjemplo
        = [{ producto_id := "A"
             producto_nombre := "Producto A"
             plazo_dias := 365
             plazo_nombre := "1 año"
             tasa_anual := 10
             rendimiento := (calcular_inversion_simple 10000 10 365).rendimiento
             monto_final := (calcular_inversion_simple 10000 10 365).monto_final
             tasa_efectiva := (calcular_inversion_simple 10000 10 365).tasa_efectiva },
           { producto_id := "B"
             producto_nombre := "Producto B"
             plazo_dias := 365
             plazo_nombre := "1 año"
             tasa_anual := 12
             rendimiento := (calcular_inversion_simple 10000 12 365).rendimiento
             monto_final := (calcular_inversion_simple 10000 12 365).monto_final
             tasa_efectiva := (calcular_inversion_simple 10000 12 365).tasa_efectiva }] := rfl
    rw [calcular_comparacion_productos, hrows]
    simp only [List.insertionSort, List.orderedInsert]
    norm_num [ordenRendimiento, hA, hB]
